import Mathlib

/-!
Verification of the daily-chow CP-SAT solver module (`src/daily_chow/solver.py`)
against its natural-language specification.

The embedding below translates the solver's model-building pipeline into Lean:

* Python `round` (banker's rounding) on floats becomes `pyround` on `ℚ`;
  per-100-g nutrient densities are embedded as rationals.
* The coefficient layer (`_scaled_coeff`, `_micro_coeff`, solver.py:94-101)
  becomes `scaled_coeff` / `micro_coeff`.
* The data model (`Food` from food_db.py:31-45, `IngredientInput`,
  `MacroConstraint`, `Solution` from solver.py:54-91) becomes structures of
  the same shape.  `Food.micros` models the Python dict as an association
  list with unique keys.
* Python attribute lookup on the slots dataclass `Food` is modelled by
  `getattrFood`, which succeeds exactly on the declared numeric slots and
  errors otherwise (a frozen slots dataclass raises `AttributeError` for any
  other name).
* The lazily-built micronutrient total expression (`_get_nutrient_expr`,
  solver.py:263-274) keeps only ingredients whose rounded per-gram
  coefficient is positive; its value at a gram assignment is
  `nutrientExprVal`.  The realized totals of the returned Solution
  (solver.py:586-594) use the unrounded densities: `microTotalRaw`.
* The objective composer (solver.py:442-536) is modelled by `buildTerms`
  (the ordered terms list with each term's upper bound), `lexweights`
  (the weight recurrence of solver.py:520-524), and `maxObj` together with
  the 2^62 pre-flight guard (`composeAndCheck`, solver.py:527-531).
* The solver driver (solver.py:538-608) is modelled by `modelReturns`:
  the empty-input early return, the infeasible branch, and the extraction
  of a Solution from a feasible assignment (`extractSolution`).
-/

namespace DailyChow

/-- Python `round` on a rational: round half to even (banker's rounding). -/
def pyround (q : ℚ) : ℤ :=
  if q - (⌊q⌋ : ℚ) < 1/2 then ⌊q⌋
  else if 1/2 < q - (⌊q⌋ : ℚ) then ⌊q⌋ + 1
  else if ⌊q⌋ % 2 = 0 then ⌊q⌋ else ⌊q⌋ + 1

/-- Constant `SCALE = 100` (solver.py:20): macro coefficients in centi-units per gram. -/
def SCALE : ℤ := 100

/-- Constant `MICRO_SCALE = 10_000` (solver.py:23). -/
def MICRO_SCALE : ℤ := 10000

/-- Constant `PCT_SCALE = 10_000` (solver.py:26). -/
def PCT_SCALE : ℤ := 10000

/-- Function `_scaled_coeff` (solver.py:94-96): `round(per_100g * SCALE / 100)`. -/
def scaled_coeff (per_100g : ℚ) : ℤ := pyround (per_100g * (SCALE : ℚ) / 100)

/-- Function `_micro_coeff` (solver.py:99-101): `round(per_100g * MICRO_SCALE / 100)`. -/
def micro_coeff (per_100g : ℚ) : ℤ := pyround (per_100g * (MICRO_SCALE : ℚ) / 100)

/-- The repository's `Food` dataclass (food_db.py:31-45), a frozen slots
dataclass.  Field names are exactly the source's. -/
structure Food where
  name : String
  unit_note : String
  cal_per_100g : ℚ
  protein_per_100g : ℚ
  fat_per_100g : ℚ
  carbs_per_100g : ℚ
  fiber_per_100g : ℚ
  category : String
  default_min : ℤ
  default_max : ℤ
  micros : List (String × ℚ)
deriving Repr

/-- Dataclass `IngredientInput` (solver.py:62-67). -/
structure IngredientInput where
  key : ℤ
  food : Food
  min_g : ℤ
  max_g : ℤ
deriving Repr

/-- Dataclass `MacroConstraint` (solver.py:54-59). -/
structure MacroConstraint where
  nutrient : String
  mode : String
  grams : ℤ
  hard : Bool
deriving Repr

/-- Dataclass `SolvedIngredient` (solver.py:70-78). -/
structure SolvedIngredient where
  key : ℤ
  grams : ℤ
  calories_kcal : ℚ
  protein_g : ℚ
  fat_g : ℚ
  carbs_g : ℚ
  fiber_g : ℚ
deriving Repr

/-- Dataclass `Solution` (solver.py:81-91).  Field `objective_value` is not modelled (no claim
mentions it); `micro_totals` models the Python dict as an association list. -/
structure Solution where
  status : String
  ingredients : List SolvedIngredient
  meal_calories_kcal : ℚ
  meal_protein_g : ℚ
  meal_fat_g : ℚ
  meal_carbs_g : ℚ
  meal_fiber_g : ℚ
  micro_totals : List (String × ℚ)
deriving Repr

/-- The slot names of the frozen `Food` dataclass (food_db.py:31-45).
With `slots=True`, attribute access on any other name raises
`AttributeError`. -/
def foodSlots : List String :=
  ["name", "unit_note", "cal_per_100g", "protein_per_100g", "fat_per_100g",
   "carbs_per_100g", "fiber_per_100g", "category", "default_min",
   "default_max", "micros"]

/-- Python attribute access for the numeric per-100-g slots of `Food`.
Any name that is not a declared slot raises `AttributeError`. -/
def getattrFood (f : Food) (a : String) : Except String ℚ :=
  if a = "cal_per_100g" then Except.ok f.cal_per_100g
  else if a = "protein_per_100g" then Except.ok f.protein_per_100g
  else if a = "fat_per_100g" then Except.ok f.fat_per_100g
  else if a = "carbs_per_100g" then Except.ok f.carbs_per_100g
  else if a = "fiber_per_100g" then Except.ok f.fiber_per_100g
  else Except.error ("AttributeError: " ++ a)

/-- Models solver.py:154: the first coefficient dict comprehension evaluated
by `solve` on a non-empty ingredient list reads
`ing.food.calories_kcal_per_100g` for each ingredient.  Returns the raised
exception, if any, as `some message`; `none` means no exception at this
phase (the empty-list early return at solver.py:134 never reaches it). -/
def solveAttrError (ingredients : List IngredientInput) : Option String :=
  if ingredients.isEmpty then none
  else
    match ingredients.mapM
        (fun ing => getattrFood ing.food "calories_kcal_per_100g") with
    | Except.error e => some e
    | Except.ok _ => none

/-- Python `round(v, 1)` on a rational. -/
def round1Q (q : ℚ) : ℚ := ((pyround (q * 10) : ℚ)) / 10

/-- Python `round(v, 2)` on a rational. -/
def round2Q (q : ℚ) : ℚ := ((pyround (q * 100) : ℚ)) / 100

/-- Lookup `food.micros.get(key, 0.0)` (solver.py:267). -/
def microOf (f : Food) (key : String) : ℚ :=
  ((f.micros.lookup key).getD 0)

/-- The integer per-gram micro coefficient of a food for a key. -/
def microCoeffOf (f : Food) (key : String) : ℤ := micro_coeff (microOf f key)

/-- The coefficient actually kept by `_get_nutrient_expr` (solver.py:266-269):
coefficients that are not strictly positive are dropped from the model. -/
def posCoeff (f : Food) (key : String) : ℤ :=
  if 0 < microCoeffOf f key then microCoeffOf f key else 0

/-- Value of the model's nutrient total expression `T_key` at a gram
assignment `x` (solver.py:263-274): only strictly positive rounded
coefficients contribute. -/
def nutrientExprVal (ingredients : List IngredientInput) (key : String)
    (x : ℤ → ℤ) : ℤ :=
  (ingredients.map (fun ing => posCoeff ing.food key * x ing.key)).sum

/-- The realized (pre-rounding) micronutrient total of the returned Solution
(solver.py:588-591): computed from the unrounded densities. -/
def microTotalRaw (ingredients : List IngredientInput) (key : String)
    (x : ℤ → ℤ) : ℚ :=
  (ingredients.map
    (fun ing => (x ing.key : ℚ) * microOf ing.food key / 100)).sum

/-- Total grams served under assignment `x`. -/
def totalGramsVal (ingredients : List IngredientInput) (x : ℤ → ℤ) : ℤ :=
  (ingredients.map (fun ing => x ing.key)).sum

/-- The solve request pieces relevant to the modelled constraints. -/
structure Scenario where
  ingredients : List IngredientInput
  mealCal : ℤ
  calTol : ℤ
  microUls : List (String × ℚ)
deriving Repr

/-- Value of the scaled calorie total expression (solver.py:161). -/
def totalCalScaled (ingredients : List IngredientInput) (x : ℤ → ℤ) : ℤ :=
  (ingredients.map
    (fun ing => scaled_coeff ing.food.cal_per_100g * x ing.key)).sum

/-- All gram variables within their declared bounds (solver.py:150-151). -/
def inBoundsB (ingredients : List IngredientInput) (x : ℤ → ℤ) : Bool :=
  ingredients.all
    (fun ing => decide (ing.min_g ≤ x ing.key) && decide (x ing.key ≤ ing.max_g))

/-- The calorie band constraint (solver.py:167-172): the deviation variable
forces `|total_cal - target*SCALE| ≤ tol*SCALE`. -/
def calOkB (sc : Scenario) (x : ℤ → ℤ) : Bool :=
  decide (-(sc.calTol * 100) ≤ totalCalScaled sc.ingredients x - sc.mealCal * 100) &&
  decide (totalCalScaled sc.ingredients x - sc.mealCal * 100 ≤ sc.calTol * 100)

/-- The UL hard caps (solver.py:276-281): for each `(key, ul_val)` with
`round(ul_val * MICRO_SCALE) > 0`, require `T_key ≤ round(ul_val * MICRO_SCALE)`;
non-positive scaled ULs are skipped. -/
def ulOkB (sc : Scenario) (x : ℤ → ℤ) : Bool :=
  sc.microUls.all (fun p =>
    if pyround (p.2 * (MICRO_SCALE : ℚ)) ≤ 0 then true
    else decide (nutrientExprVal sc.ingredients p.1 x ≤ pyround (p.2 * (MICRO_SCALE : ℚ))))

/-- Assignment `x` satisfies the modelled hard constraints of the scenario. -/
def satisfiesB (sc : Scenario) (x : ℤ → ℤ) : Bool :=
  inBoundsB sc.ingredients x && calOkB sc x && ulOkB sc x

/-- Realized meal total for one macro selector (solver.py:564-575). -/
def mealTotal (ingredients : List IngredientInput) (x : ℤ → ℤ)
    (sel : Food → ℚ) : ℚ :=
  (ingredients.map (fun ing => (x ing.key : ℚ) * sel ing.food / 100)).sum

/-- The micronutrient keys appearing in any ingredient, first occurrence
order (the iteration of solver.py:588-591 over the dicts). -/
def microKeysOf (ingredients : List IngredientInput) : List String :=
  ((ingredients.map (fun ing => ing.food.micros.map Prod.fst)).flatten).dedup

/-- Extraction of a Solution from a feasible assignment
(solver.py:556-608).  `opt = true` models terminal status OPTIMAL. -/
def extractSolution (sc : Scenario) (x : ℤ → ℤ) (opt : Bool) : Solution :=
  { status := if opt then "optimal" else "feasible"
  , ingredients := sc.ingredients.map (fun ing =>
      { key := ing.key
      , grams := x ing.key
      , calories_kcal := round1Q ((x ing.key : ℚ) * ing.food.cal_per_100g / 100)
      , protein_g := round1Q ((x ing.key : ℚ) * ing.food.protein_per_100g / 100)
      , fat_g := round1Q ((x ing.key : ℚ) * ing.food.fat_per_100g / 100)
      , carbs_g := round1Q ((x ing.key : ℚ) * ing.food.carbs_per_100g / 100)
      , fiber_g := round1Q ((x ing.key : ℚ) * ing.food.fiber_per_100g / 100) })
  , meal_calories_kcal := round1Q (mealTotal sc.ingredients x Food.cal_per_100g)
  , meal_protein_g := round1Q (mealTotal sc.ingredients x Food.protein_per_100g)
  , meal_fat_g := round1Q (mealTotal sc.ingredients x Food.fat_per_100g)
  , meal_carbs_g := round1Q (mealTotal sc.ingredients x Food.carbs_per_100g)
  , meal_fiber_g := round1Q (mealTotal sc.ingredients x Food.fiber_per_100g)
  , micro_totals := (microKeysOf sc.ingredients).map
      (fun k => (k, round2Q (microTotalRaw sc.ingredients k x))) }

/-- The deterministic infeasible Solution (solver.py:134-144 and 544-554). -/
def emptyInfeasible : Solution :=
  { status := "infeasible", ingredients := [], meal_calories_kcal := 0
  , meal_protein_g := 0, meal_fat_g := 0, meal_carbs_g := 0
  , meal_fiber_g := 0, micro_totals := [] }

/-- The solver driver outcome (solver.py:134-144, 544-554, 596-608):
an empty ingredient list short-circuits to the infeasible Solution; a solver
run that found no feasible assignment (`found = none`, covering both proven
infeasibility and timeout without incumbent) also returns it; otherwise the
found assignment is extracted. -/
def modelReturns (sc : Scenario) (found : Option ((ℤ → ℤ) × Bool)) : Solution :=
  if sc.ingredients.isEmpty then emptyInfeasible
  else
    match found with
    | none => emptyInfeasible
    | some (x, opt) => extractSolution sc x opt

/-- Per-100-g density of a macro nutrient by its `MacroConstraint` name
(solver.py:175-189). -/
def macroDensity (f : Food) (nutr : String) : ℚ :=
  if nutr = "carbs" then f.carbs_per_100g
  else if nutr = "protein" then f.protein_per_100g
  else if nutr = "fat" then f.fat_per_100g
  else f.fiber_per_100g

/-- Bound `max_possible` for a soft constraint (solver.py:213-216):
`sum(ing.max_g * coeffs_for_nutrient[ing.key] for ing in ingredients)`. -/
def maxPossibleOf (ingredients : List IngredientInput) (nutr : String) : ℤ :=
  (ingredients.map
    (fun ing => ing.max_g * scaled_coeff (macroDensity ing.food nutr))).sum

/-- Bound `dev_bound` (solver.py:217): `max(max_possible, target_scaled)`. -/
def softDevBound (ingredients : List IngredientInput) (nutr : String)
    (grams : ℤ) : ℤ :=
  max (maxPossibleOf ingredients nutr) (grams * SCALE)

/-- The normalization denominator as the claim and spec word it
(spec section 4.2): `g*S_MACRO` for gte and `dev_bound` otherwise, with no
lower clamp. -/
def softNormDenomClaim (ingredients : List IngredientInput) (nutr mode : String)
    (grams : ℤ) : ℤ :=
  if mode = "gte" then grams * SCALE else softDevBound ingredients nutr grams

/-- The normalization denominator the code actually uses (solver.py:240-241):
the claim's denominator clamped below by 1 (`norm_denom = max(norm_denom, 1)`). -/
def softNormDenomCode (ingredients : List IngredientInput) (nutr mode : String)
    (grams : ℤ) : ℤ :=
  max (softNormDenomClaim ingredients nutr mode grams) 1

/-- The constraints the model places on the auxiliary variables of one soft
macro constraint (solver.py:208-247), at given values of the nutrient total
expression, the raw deviation variable and the percentage variable. -/
def softHolds (ingredients : List IngredientInput) (nutr mode : String)
    (grams exprVal dev pct : ℤ) : Prop :=
  0 ≤ dev ∧ dev ≤ softDevBound ingredients nutr grams ∧
  (if mode = "gte" then grams * SCALE - exprVal ≤ dev
   else if mode = "lte" then exprVal - grams * SCALE ≤ dev
   else dev = |exprVal - grams * SCALE|) ∧
  0 ≤ pct ∧ pct ≤ PCT_SCALE ∧
  dev * PCT_SCALE ≤ pct * softNormDenomCode ingredients nutr mode grams

/-- Set `ratio_excluded` (solver.py:401-405): the nutrients of all macro
constraints whose mode is not `none`, hard or soft alike. -/
def ratioExcluded (mcs : List MacroConstraint) : List String :=
  (mcs.filter (fun mc => mc.mode ≠ "none")).map (fun mc => mc.nutrient)

/-- Map `_ratio_name_to_nutrient` (solver.py:407). -/
def ratioNameToNutrient (name : String) : String :=
  if name = "carb" then "carbs"
  else if name = "pro" then "protein"
  else "fat"

/-- The ratio names for which a percentage-deviation variable is created and
aggregated into the ratio minimax witness (solver.py:409-439): the loop
skips any name whose nutrient is in `ratio_excluded`. -/
def ratioDevNames (mcs : List MacroConstraint) : List String :=
  ["carb", "pro", "fat"].filter
    (fun name => decide (ratioNameToNutrient name ∉ ratioExcluded mcs))

/-- The expressions that can appear as objective terms (solver.py:488-518).
`combinedDev` is the combined macro-ratio / loose-deviation minimax variable
of solver.py:452-468. -/
inductive TermId where
  | worstUlProx
  | worstPct
  | microSum
  | combinedDev
  | diversity
  | totalGrams
deriving DecidableEq, Repr

/-- The inputs the objective composer reads (solver.py:442-518), at the level
of which auxiliary witnesses exist and their maxima:
`hasUlProx` — `worst_ul_prox_var` exists (some target/UL pair with positive
headroom); `numMicroPct` — the number of `pct_short` variables (`worst_pct`
exists iff it is positive, and `max_micro_pct_sum = numMicroPct * 100`);
`hasRatioWorst` / `hasLooseWorst` — the macro-ratio and loose-deviation
minimax witnesses exist (each with maximum `PCT_SCALE`);
`diversityMax` — `max(ing.max_g)`; `maxTotal` — `sum(ing.max_g)`. -/
structure ComposerInput where
  priorities : List String
  strategy : String
  hasUlProx : Bool
  numMicroPct : Nat
  hasRatioWorst : Bool
  hasLooseWorst : Bool
  diversityMax : Nat
  maxTotal : Nat
deriving Repr

/-- The sub-terms the MICROS tier emits (solver.py:490-505). -/
def microsTerms (inp : ComposerInput) : List (TermId × Nat) :=
  (if inp.hasUlProx then [(TermId.worstUlProx, 100)] else []) ++
  (if inp.strategy = "breadth" then
    (if 0 < inp.numMicroPct then [(TermId.microSum, inp.numMicroPct * 100)] else []) ++
    (if 0 < inp.numMicroPct then [(TermId.worstPct, 100)] else [])
  else
    (if 0 < inp.numMicroPct then [(TermId.worstPct, 100)] else []) ++
    (if 0 < inp.numMicroPct then [(TermId.microSum, inp.numMicroPct * 100)] else []))

/-- The terms one priority entry contributes (solver.py:489-513). -/
def tierTerms (inp : ComposerInput) (p : String) : List (TermId × Nat) :=
  if p = "micros" then microsTerms inp
  else if p = "macro_ratio" then
    (if inp.hasRatioWorst || inp.hasLooseWorst then [(TermId.combinedDev, 10000)] else [])
  else if p = "ingredient_diversity" then
    (if 0 < inp.diversityMax then [(TermId.diversity, inp.diversityMax)] else [])
  else if p = "total_weight" then [(TermId.totalGrams, inp.maxTotal)]
  else []

/-- The composer's terms list (solver.py:488-518), including the fallback to
total-grams minimization when no term was emitted. -/
def buildTerms (inp : ComposerInput) : List (TermId × Nat) :=
  let ts := (inp.priorities.map (tierTerms inp)).flatten
  if ts.isEmpty then [(TermId.totalGrams, inp.maxTotal)] else ts

/-- The weight recurrence of solver.py:520-524:
`w[-1] = 1; w[i] = max[i+1] * w[i+1] + 1` over the maxima list. -/
def lexweights : List Nat → List Nat
  | [] => []
  | [_] => [1]
  | _ :: m :: rest =>
    match lexweights (m :: rest) with
    | [] => [1]
    | w :: ws => (m * w + 1) :: w :: ws

/-- Value `max_obj` (solver.py:527): the maximum possible assembled objective,
`sum(max_val * w)` over the terms. -/
def maxObj (maxima : List Nat) : Nat :=
  (List.zipWith (fun a b => a * b) maxima (lexweights maxima)).sum

/-- The assembled scalar objective at given per-tier expression values
(solver.py:533-536). -/
def scalarObjVals (weights evals : List Nat) : Nat :=
  (List.zipWith (fun a b => a * b) weights evals).sum

/-- The combined weight the assembled objective gives one expression: the sum
of the lexicographic weights at every position where that expression occurs
in the terms list (solver.py:533-535 adds `expr * w` once per occurrence). -/
def totalWeightOf (ts : List (TermId × Nat)) (t : TermId) : Nat :=
  (List.zipWith (fun p w => if p.1 = t then w else 0) ts
    (lexweights (ts.map Prod.snd))).sum

/-- The composer's pre-flight overflow guard (solver.py:527-531): compute the
terms and weights, and reject (the assertion raises, before the solver is
invoked at solver.py:542) unless `max_obj < 2^62`. -/
def composeAndCheck (inp : ComposerInput) : Except String (List (TermId × Nat)) :=
  let ts := buildTerms inp
  if maxObj (ts.map Prod.snd) < 2 ^ 62 then Except.ok ts
  else Except.error "AssertionError: lexicographic objective would overflow int64"

/-- Is a priority string one of the four known priorities (solver.py:29-33)? -/
def isKnownPriority (p : String) : Bool :=
  p = "micros" || p = "macro_ratio" || p = "ingredient_diversity" || p = "total_weight"

/-- The suffix `sum over j > k of M_j * w_j` of the weighted maxima,
used to state tier domination. -/
def weightedSuffix (maxima : List Nat) (k : Nat) : Nat :=
  ((List.zipWith (fun a b => a * b) maxima (lexweights maxima)).drop (k + 1)).sum

/-! ### Concrete instances used in counterexamples and witnesses -/

/-- A composer input the composer can really see: priorities
`["micros", "total_weight"]`, depth strategy, one micronutrient target that
also has a UL with positive headroom, and the nine default ingredient bounds
of tests/test_solver.py (`sum(max_g) = 4250`, `max(max_g) = 1000`). -/
def inpC1 : ComposerInput :=
  { priorities := ["micros", "total_weight"], strategy := "depth"
  , hasUlProx := true, numMicroPct := 1, hasRatioWorst := false
  , hasLooseWorst := false, diversityMax := 1000, maxTotal := 4250 }

/-- Same composer input, instantiating the overflow-guard theorem. -/
def inpC2 : ComposerInput :=
  { priorities := ["micros", "total_weight"], strategy := "depth"
  , hasUlProx := true, numMicroPct := 1, hasRatioWorst := false
  , hasLooseWorst := false, diversityMax := 1000, maxTotal := 4250 }

/-- Priority list with a duplicated `micros` entry. -/
def inpDup : ComposerInput :=
  { priorities := ["micros", "total_weight", "micros"], strategy := "depth"
  , hasUlProx := false, numMicroPct := 1, hasRatioWorst := false
  , hasLooseWorst := false, diversityMax := 0, maxTotal := 4250 }

/-- The same composer input with the duplicate removed. -/
def inpDedup : ComposerInput :=
  { priorities := ["micros", "total_weight"], strategy := "depth"
  , hasUlProx := false, numMicroPct := 1, hasRatioWorst := false
  , hasLooseWorst := false, diversityMax := 0, maxTotal := 4250 }

/-- A composer input whose priority list holds only an unknown entry. -/
def inpW5 : ComposerInput :=
  { priorities := ["protein_floor"], strategy := "depth"
  , hasUlProx := true, numMicroPct := 1, hasRatioWorst := false
  , hasLooseWorst := false, diversityMax := 0, maxTotal := 4250 }

/-- A composer input with a live loose-deviation witness but no
`macro_ratio` entry in the priorities. -/
def inpW9 : ComposerInput :=
  { priorities := ["total_weight"], strategy := "depth"
  , hasUlProx := false, numMicroPct := 0, hasRatioWorst := false
  , hasLooseWorst := true, diversityMax := 0, maxTotal := 4250 }

/-- A `Food` value exactly as food_db.py builds them (field names
`cal_per_100g`, ..., food_db.py:31-45). -/
def foodC3 : Food :=
  { name := "White rice", unit_note := "dry", cal_per_100g := 365
  , protein_per_100g := 7, fat_per_100g := 1, carbs_per_100g := 80
  , fiber_per_100g := 1, category := "grains", default_min := 0
  , default_max := 400, micros := [] }

/-- An ingredient input carrying the repository's `Food` value. -/
def ingC3 : IngredientInput := { key := 2512381, food := foodC3, min_g := 0, max_g := 400 }

/-- A food whose iron density (0.004 mg per 100 g) rounds to a zero
per-gram micro coefficient at `MICRO_SCALE`. -/
def foodC4 : Food :=
  { name := "trace food", unit_note := "", cal_per_100g := 100
  , protein_per_100g := 0, fat_per_100g := 0, carbs_per_100g := 0
  , fiber_per_100g := 0, category := "test", default_min := 0
  , default_max := 1000, micros := [("iron_mg", 1/250)] }

/-- Three copies of the trace food, pinned at exactly 1000 g each. -/
def ingsC4 : List IngredientInput :=
  [ { key := 1, food := foodC4, min_g := 1000, max_g := 1000 }
  , { key := 2, food := foodC4, min_g := 1000, max_g := 1000 }
  , { key := 3, food := foodC4, min_g := 1000, max_g := 1000 } ]

/-- Scenario with a tiny iron UL of 0.001 mg.  The calorie band
(3000 kcal ± 50) is met exactly by the pinned grams. -/
def scC4 : Scenario :=
  { ingredients := ingsC4, mealCal := 3000, calTol := 50
  , microUls := [("iron_mg", 1/1000)] }

/-- The only assignment within the bounds of `ingsC4`. -/
def xC4 : ℤ → ℤ := fun _ => 1000

/-- The Solution the solver driver returns for that assignment. -/
def solC4 : Solution := extractSolution scC4 xC4 false

/-- The empty-ingredients scenario. -/
def scEmpty : Scenario :=
  { ingredients := [], mealCal := 2780, calTol := 50, microUls := [] }

/-- A protein-bearing food used for the soft-constraint instances. -/
def foodC7 : Food :=
  { name := "chicken thigh", unit_note := "raw", cal_per_100g := 165
  , protein_per_100g := 20, fat_per_100g := 6, carbs_per_100g := 0
  , fiber_per_100g := 0, category := "meats", default_min := 0
  , default_max := 1000, micros := [] }

/-- Ingredient input for the soft-constraint instances. -/
def ingC7 : IngredientInput := { key := 10, food := foodC7, min_g := 0, max_g := 1000 }

/-- A hard `eq` fat constraint. -/
def mcC8 : MacroConstraint := { nutrient := "fat", mode := "eq", grams := 80, hard := true }

/-- An ingredient whose only micronutrient rounds to a zero coefficient. -/
def ingC10 : IngredientInput := { key := 20, food := foodC4, min_g := 0, max_g := 500 }

/-- An arbitrary gram assignment for the zero-coefficient instance. -/
def xC10 : ℤ → ℤ := fun _ => 7

/-! ### Shared lemmas -/

/-- Banker's rounding never exceeds its argument by more than one half. -/
theorem pyround_le (q : ℚ) : (pyround q : ℚ) ≤ q + 1/2 := by
  have hfl : (⌊q⌋ : ℚ) ≤ q := Int.floor_le q
  have hfr : q < (⌊q⌋ : ℚ) + 1 := Int.lt_floor_add_one q
  unfold pyround
  split_ifs <;> push_cast <;> linarith

/-- Banker's rounding never falls below its argument by more than one half. -/
theorem le_pyround (q : ℚ) : q - 1/2 ≤ (pyround q : ℚ) := by
  have hfl : (⌊q⌋ : ℚ) ≤ q := Int.floor_le q
  have hfr : q < (⌊q⌋ : ℚ) + 1 := Int.lt_floor_add_one q
  unfold pyround
  split_ifs <;> push_cast <;> linarith

/-- Function `_micro_coeff` rounds the density times 100. -/
theorem micro_coeff_eq_pyround (d : ℚ) : micro_coeff d = pyround (d * 100) := by
  unfold micro_coeff MICRO_SCALE
  norm_num
  congr 1
  ring

/-- The per-gram density is bounded by the model's kept coefficient plus the
rounding slack, at the micro scale. -/
theorem microOf_le (f : Food) (key : String) :
    microOf f key / 100 ≤ ((posCoeff f key : ℚ) + 1/2) / 10000 := by
  have h := le_pyround (microOf f key * 100)
  have hcq : (microCoeffOf f key : ℚ) = (pyround (microOf f key * 100) : ℚ) := by
    rw [microCoeffOf, micro_coeff_eq_pyround]
  have hc : (microCoeffOf f key : ℚ) ≤ (posCoeff f key : ℚ) := by
    unfold posCoeff
    split_ifs with h0
    · exact le_refl _
    · push_neg at h0
      exact_mod_cast h0.trans (le_refl 0)
  linarith

/-- One ingredient's realized contribution is bounded by its model
contribution plus per-gram rounding slack. -/
theorem ing_contrib_le (f : Food) (key : String) (g : ℤ) (hg : 0 ≤ g) :
    (g : ℚ) * microOf f key / 100 ≤
      ((posCoeff f key * g : ℤ) : ℚ) / 10000 + (g : ℚ) / 20000 := by
  have h := microOf_le f key
  have hgq : (0 : ℚ) ≤ (g : ℚ) := by exact_mod_cast hg
  have h2 := mul_le_mul_of_nonneg_left h hgq
  push_cast
  ring_nf at h2 ⊢
  linarith

/-- The realized micronutrient total is bounded by the model's nutrient
expression value plus half a micro-scale unit per gram served. -/
theorem microTotalRaw_le (ingredients : List IngredientInput) (key : String)
    (x : ℤ → ℤ) (hx : ∀ ing ∈ ingredients, 0 ≤ x ing.key) :
    microTotalRaw ingredients key x ≤
      ((nutrientExprVal ingredients key x : ℤ) : ℚ) / 10000 +
        ((totalGramsVal ingredients x : ℤ) : ℚ) / 20000 := by
  induction ingredients with
  | nil => simp [microTotalRaw, nutrientExprVal, totalGramsVal]
  | cons a l ih =>
    have ha := hx a (List.mem_cons_self a l)
    have hl : ∀ ing ∈ l, 0 ≤ x ing.key := fun ing h => hx ing (List.mem_cons_of_mem a h)
    have hia := ing_contrib_le a.food key (x a.key) ha
    have ihl := ih hl
    simp only [microTotalRaw, nutrientExprVal, totalGramsVal, List.map_cons,
      List.sum_cons] at ihl ⊢
    push_cast at hia ihl ⊢
    linarith

/-- The trace food's iron density (0.004 per 100 g) rounds to a zero
per-gram coefficient at the micro scale. -/
theorem microCoeffOf_foodC4 : microCoeffOf foodC4 "iron_mg" = 0 := by
  have h : microOf foodC4 "iron_mg" = 1/250 := by
    simp [microOf, foodC4, List.lookup]
  rw [microCoeffOf, micro_coeff_eq_pyround, h]
  unfold pyround
  norm_num

/-- A term yielded by one priority entry can be the combined macro/loose
minimax only if that entry is `macro_ratio` (solver.py:506-508). -/
theorem mem_tierTerms_combined (inp : ComposerInput) (p : String)
    (t : TermId × Nat) (ht : t ∈ tierTerms inp p)
    (hc : t.1 = TermId.combinedDev) : p = "macro_ratio" := by
  by_cases h1 : p = "micros"
  · exfalso
    unfold tierTerms at ht
    rw [if_pos h1] at ht
    unfold microsTerms at ht
    split_ifs at ht <;>
      simp only [List.mem_append, List.mem_singleton, List.not_mem_nil,
        or_false, false_or] at ht <;>
      (rcases ht with rfl | rfl | rfl <;> simp at hc)
  · by_cases h2 : p = "macro_ratio"
    · exact h2
    · by_cases h3 : p = "ingredient_diversity"
      · exfalso
        unfold tierTerms at ht
        rw [if_neg h1, if_neg h2, if_pos h3] at ht
        split_ifs at ht <;> simp_all
      · by_cases h4 : p = "total_weight"
        · exfalso
          unfold tierTerms at ht
          rw [if_neg h1, if_neg h2, if_neg h3, if_pos h4] at ht
          simp_all
        · exfalso
          unfold tierTerms at ht
          rw [if_neg h1, if_neg h2, if_neg h3, if_neg h4] at ht
          simp_all

/-- A priority string outside the four known constants contributes no term
(solver.py:489-513 matches only the four constants). -/
theorem tierTerms_unknown (inp : ComposerInput) (p : String)
    (h : isKnownPriority p = false) : tierTerms inp p = [] := by
  unfold isKnownPriority at h
  simp only [Bool.or_eq_false_iff, decide_eq_false_iff_not] at h
  unfold tierTerms
  rw [if_neg h.1.1.1, if_neg h.1.1.2, if_neg h.1.2, if_neg h.2]

/-- The macro coefficient of a density of exactly 100 is 100. -/
theorem scaled_coeff_100 : scaled_coeff (100 : ℚ) = 100 := by
  unfold scaled_coeff SCALE pyround
  norm_num

/-- The trace food's calorie total is exactly on target at the pinned
assignment. -/
theorem totalCal_scC4 : totalCalScaled scC4.ingredients xC4 = 300000 := by
  norm_num [totalCalScaled, scC4, ingsC4, foodC4, xC4, scaled_coeff_100]

/-- The model's iron expression over the trace foods is identically zero:
every coefficient rounds to zero. -/
theorem nutrientExprVal_ingsC4 (x : ℤ → ℤ) :
    nutrientExprVal ingsC4 "iron_mg" x = 0 := by
  simp [nutrientExprVal, ingsC4, posCoeff, microCoeffOf_foodC4]

/-- The scaled iron UL of scenario `scC4`. -/
theorem pyround_ulC4 : pyround ((1/1000 : ℚ) * ((MICRO_SCALE : ℤ) : ℚ)) = 10 := by
  norm_num [MICRO_SCALE]
  unfold pyround
  norm_num

/-- The pinned assignment satisfies the modelled UL constraints of
scenario `scC4`: the iron cap is enforced (scaled UL 10 > 0) and the model
expression is identically zero. -/
theorem ulOk_scC4 : ulOkB scC4 xC4 = true := by
  have hexpr := nutrientExprVal_ingsC4 xC4
  have hp : pyround ((1000⁻¹ : ℚ) * ((MICRO_SCALE : ℤ) : ℚ)) = 10 := by
    rw [show ((1000⁻¹ : ℚ)) = 1 / 1000 from by norm_num]
    exact pyround_ulC4
  simp [ulOkB, scC4, hexpr, hp]

/-- The pinned assignment satisfies every modelled hard constraint of
scenario `scC4`, so the solver returns it with a feasible status. -/
theorem satisfies_scC4 : satisfiesB scC4 xC4 = true := by
  have h1 : inBoundsB scC4.ingredients xC4 = true := by
    norm_num [inBoundsB, scC4, ingsC4, xC4]
  have h2 : calOkB scC4 xC4 = true := by
    unfold calOkB
    rw [totalCal_scC4]
    norm_num [scC4]
  simp [satisfiesB, h1, h2, ulOk_scC4]

/-- The realized iron total of the returned Solution is 0.12 mg. -/
theorem microTotals_solC4 : solC4.micro_totals = [("iron_mg", 3/25)] := by
  have hm : microOf foodC4 "iron_mg" = 1/250 := by
    simp [microOf, foodC4, List.lookup]
  have hk : microKeysOf scC4.ingredients = ["iron_mg"] := by
    unfold microKeysOf
    simp only [scC4, ingsC4, foodC4, List.map_cons, List.map_nil, List.flatten]
    rw [show (["iron_mg"] ++ (["iron_mg"] ++ (["iron_mg"] ++ ([] : List String)))) =
        ["iron_mg", "iron_mg", "iron_mg"] from rfl]
    rw [List.dedup_cons_of_mem (by simp), List.dedup_cons_of_mem (by simp),
      List.dedup_cons_of_not_mem (by simp), List.dedup_nil]
  have hr : microTotalRaw scC4.ingredients "iron_mg" xC4 = 3/25 := by
    simp only [microTotalRaw, scC4, ingsC4, xC4, List.map_cons, List.map_nil,
      List.sum_cons, List.sum_nil]
    rw [hm]
    norm_num
  have h2 : round2Q (3/25 : ℚ) = 3/25 := by
    unfold round2Q pyround
    norm_num
  show (extractSolution scC4 xC4 false).micro_totals = [("iron_mg", 3/25)]
  unfold extractSolution
  simp only [hk, List.map_cons, List.map_nil, hr, h2]

/-! ### Claim theorems -/

/-- C1.  The weight recurrence of solver.py:520-524 does NOT realize
lexicographic ordering on a terms list the composer really builds: for
priorities `["micros", "total_weight"]` with one micronutrient target that
has a UL pair and the default test bounds, the composer emits maxima
`[100, 100, 100, 4250]`, the recurrence gives `w_0 = 42510101`, but the
maximum possible total contribution of the lower tiers is `42939450 > w_0`.
In particular the assembled scalar objective strictly prefers the tier
values `(1, 0, 0, 0)` over `(0, 100, 100, 4250)`, although the latter is
lexicographically smaller — so a unit decrease of tier 0 does not dominate
the lower tiers, contradicting the claim (and the comment at
solver.py:443-445). -/
theorem lex_weights_domination_fails :
    buildTerms inpC1 =
      [(TermId.worstUlProx, 100), (TermId.worstPct, 100),
       (TermId.microSum, 100), (TermId.totalGrams, 4250)] ∧
    lexweights [100, 100, 100, 4250] = [42510101, 425101, 4251, 1] ∧
    weightedSuffix [100, 100, 100, 4250] 0 = 42939450 ∧
    ¬ 42939450 < 42510101 ∧
    scalarObjVals [42510101, 425101, 4251, 1] [1, 0, 0, 0] <
      scalarObjVals [42510101, 425101, 4251, 1] [0, 100, 100, 4250] := by
  refine ⟨by decide, by decide, by decide, by decide, by decide⟩

/-- C2.  The overflow pre-flight guard (solver.py:527-531) is sound: any
composer input that passes it (so that the solver is invoked) has maximum
assembled objective strictly below `2^62`, and any input whose maximum
assembled objective reaches `2^62` is rejected with the assertion error
before the solver is invoked. -/
theorem overflow_guard_sound (inp : ComposerInput) :
    (∀ ts, composeAndCheck inp = Except.ok ts →
      maxObj ((buildTerms inp).map Prod.snd) < 2 ^ 62 ∧ ts = buildTerms inp) ∧
    (2 ^ 62 ≤ maxObj ((buildTerms inp).map Prod.snd) →
      composeAndCheck inp =
        Except.error "AssertionError: lexicographic objective would overflow int64") := by
  constructor
  · intro ts h
    simp only [composeAndCheck] at h
    split at h
    · exact ⟨by assumption, by injection h with h2; exact h2.symm⟩
    · exact absurd h (by simp)
  · intro hge
    simp only [composeAndCheck]
    rw [if_neg (not_lt.mpr hge)]

/-- C2 witness: the representative composer input passes the guard and its
maximum assembled objective is below `2^62`. -/
theorem overflow_guard_sound_witness :
    maxObj ((buildTerms inpC2).map Prod.snd) < 2 ^ 62 ∧
      buildTerms inpC2 = buildTerms inpC2 :=
  (overflow_guard_sound inpC2).1 (buildTerms inpC2)
    (by simp only [composeAndCheck]; rw [if_pos (by decide)])

/-- C3.  `solve` does raise an exception on every non-empty ingredient list
carrying the repository's `Food` value: the first coefficient comprehension
(solver.py:154) reads attribute `calories_kcal_per_100g`, which is not a
slot of the frozen `Food` dataclass (food_db.py:31-45 declares
`cal_per_100g`), so Python raises `AttributeError` before any Solution can
be produced — contradicting the claim that all failures are encoded in
`Solution.status`. -/
theorem solve_attribute_error_on_food :
    solveAttrError [ingC3] = some "AttributeError: calories_kcal_per_100g" ∧
    "calories_kcal_per_100g" ∉ foodSlots ∧
    "cal_per_100g" ∈ foodSlots := by
  refine ⟨by decide, by decide, by decide⟩

/-- C7 counterexample.  For a soft `gte` constraint with `grams = 0`, the
claim's normalization denominator (`g * S_MACRO = 0`) differs from the
denominator the code uses (clamped to `1`, solver.py:241): with the raw
deviation at `1`, the code's constraint `p * norm_denom >= pen * PCT_SCALE`
is satisfiable at `p = PCT_SCALE` while the claim's is not. -/
theorem soft_norm_denom_counterexample :
    softNormDenomClaim [ingC7] "protein" "gte" 0 = 0 ∧
    softNormDenomCode [ingC7] "protein" "gte" 0 = 1 ∧
    softNormDenomCode [ingC7] "protein" "gte" 0 ≠
      softNormDenomClaim [ingC7] "protein" "gte" 0 ∧
    1 * PCT_SCALE ≤ PCT_SCALE * softNormDenomCode [ingC7] "protein" "gte" 0 ∧
    ¬ 1 * PCT_SCALE ≤ PCT_SCALE * softNormDenomClaim [ingC7] "protein" "gte" 0 := by
  refine ⟨by decide, by decide, by decide, by decide, by decide⟩

/-- C7 amended.  For every soft macro constraint the builder (solver.py:
208-247) uses `dev_bound = max(sum(max_g * c), g * S_MACRO)`, and its
normalization denominator is the claim's denominator (`g * S_MACRO` for gte,
`dev_bound` otherwise) clamped below by 1; the two agree whenever the
claim's denominator is at least 1. -/
theorem soft_constraint_structure (ingredients : List IngredientInput)
    (nutr mode : String) (grams : ℤ) :
    softDevBound ingredients nutr grams =
      max ((ingredients.map
            (fun ing => ing.max_g * scaled_coeff (macroDensity ing.food nutr))).sum)
        (grams * SCALE) ∧
    (1 ≤ softNormDenomClaim ingredients nutr mode grams →
      softNormDenomCode ingredients nutr mode grams =
        softNormDenomClaim ingredients nutr mode grams) ∧
    softNormDenomCode ingredients nutr mode grams =
      max (softNormDenomClaim ingredients nutr mode grams) 1 :=
  ⟨rfl, fun h => max_eq_left h, rfl⟩

/-- C7 amended witness: for a soft gte protein constraint at 130 g the
claim's denominator (13000 ≥ 1) is exactly what the code uses. -/
theorem soft_constraint_structure_witness :
    softNormDenomCode [ingC7] "protein" "gte" 130 =
      softNormDenomClaim [ingC7] "protein" "gte" 130 :=
  (soft_constraint_structure [ingC7] "protein" "gte" 130).2.1 (by decide)

/-- C8.  A macro governed by any macro constraint with mode distinct from
`none` — hard or soft — is excluded from the macro-ratio sub-objective:
no percentage-deviation variable is created (and hence none aggregated into
the minimax witness) for its ratio name (solver.py:399-415). -/
theorem active_constraint_excluded_from_ratio_objective
    (mcs : List MacroConstraint) (mc : MacroConstraint) (name : String)
    (hm : mc ∈ mcs) (hmode : mc.mode ≠ "none")
    (hname : ratioNameToNutrient name = mc.nutrient) :
    name ∉ ratioDevNames mcs := by
  intro hin
  have h1 : mc.nutrient ∈ ratioExcluded mcs := by
    unfold ratioExcluded
    exact List.mem_map.mpr ⟨mc, List.mem_filter.mpr ⟨hm, decide_eq_true hmode⟩, rfl⟩
  have h2 := (List.mem_filter.mp hin).2
  exact (of_decide_eq_true h2) (hname ▸ h1)

/-- C8 witness: with a hard `eq` fat constraint, `fat` gets no ratio
percentage-deviation variable. -/
theorem active_constraint_excluded_witness :
    "fat" ∉ ratioDevNames [mcC8] :=
  active_constraint_excluded_from_ratio_objective [mcC8] mcC8 "fat"
    (List.mem_singleton.mpr rfl) (by decide) (by decide)

/-- C10.  An ingredient whose per-100-g density for a key rounds to a
zero per-gram coefficient at `MICRO_SCALE` contributes nothing to the
model's nutrient total expression (used by the UL cap and the shortfall
objective, solver.py:263-274) under every gram assignment, while the
realized `micro_totals` of the returned Solution still include its unrounded
contribution (solver.py:588-591). -/
theorem zero_coeff_excluded_from_expr (pre post : List IngredientInput)
    (ing : IngredientInput) (key : String) (x : ℤ → ℤ)
    (h : microCoeffOf ing.food key = 0) :
    nutrientExprVal (pre ++ ing :: post) key x =
      nutrientExprVal (pre ++ post) key x ∧
    microTotalRaw (pre ++ ing :: post) key x =
      microTotalRaw (pre ++ post) key x +
        (x ing.key : ℚ) * microOf ing.food key / 100 := by
  have hpos : posCoeff ing.food key = 0 := by simp [posCoeff, h]
  constructor
  · unfold nutrientExprVal
    simp [List.map_append, List.sum_append, hpos]
  · unfold microTotalRaw
    simp only [List.map_append, List.sum_append, List.map_cons, List.sum_cons]
    ring

/-- C10 witness: the trace food's iron (0.004 mg / 100 g) rounds to a zero
coefficient; it is invisible to the model expression yet contributes to the
realized total. -/
theorem zero_coeff_excluded_witness :
    nutrientExprVal [ingC10] "iron_mg" xC10 = nutrientExprVal [] "iron_mg" xC10 ∧
    microTotalRaw [ingC10] "iron_mg" xC10 =
      microTotalRaw [] "iron_mg" xC10 +
        (xC10 ingC10.key : ℚ) * microOf ingC10.food "iron_mg" / 100 :=
  zero_coeff_excluded_from_expr [] [] ingC10 "iron_mg" xC10 microCoeffOf_foodC4

/-- C4 counterexample.  In scenario `scC4` (iron UL 0.001 mg, three trace
foods of 0.004 mg iron per 100 g pinned at 1000 g each) the pinned
assignment satisfies every model constraint — the iron expression is
identically zero because every coefficient rounds to zero — so the solver
returns a feasible Solution; its realized iron total is 0.12 mg, which
exceeds `ul + 0.1 = 0.101`.  The claimed bound `realized ≤ ul + 0.1` is
therefore false. -/
theorem ul_tolerance_counterexample :
    satisfiesB scC4 xC4 = true ∧
    modelReturns scC4 (some (xC4, false)) = solC4 ∧
    solC4.status = "feasible" ∧
    solC4.micro_totals = [("iron_mg", 3/25)] ∧
    scC4.microUls = [("iron_mg", 1/1000)] ∧
    ¬ ((3 : ℚ)/25 ≤ 1/1000 + 1/10) :=
  ⟨satisfies_scC4, rfl, rfl, microTotals_solC4, rfl, by norm_num⟩

/-- C4 amended.  For a UL entry `(key, ul)` of the request, split on the
sign of the scaled UL `round(ul * S_MICRO)` (solver.py:278-281):
if it is positive, any assignment satisfying the modelled UL constraints
(as every returned optimal/feasible Solution does) satisfies the hard cap
`T_key ≤ round(ul * S_MICRO)`, and the realized 2-decimal-rounded total is
at most `ul + (1 + total grams)/20000 + 1/200` — half a micro-scale unit
for the UL rounding, half a unit per gram served for the per-ingredient
coefficient rounding (including ingredients whose coefficient rounds to
zero and is dropped from the expression), and the final `round(v, 2)`; the
claim's flat `ul + 0.1` only follows when total grams is at most 1899.
If the scaled UL is zero or below (ul at most 0.00005), the entry is
skipped — the UL check holds for every assignment and every ingredient
list, so nothing at all is enforced for that key. -/
theorem ul_realized_total_bound (sc : Scenario) (key : String) (ul : ℚ)
    (x : ℤ → ℤ) :
    ((key, ul) ∈ sc.microUls → ulOkB sc x = true →
      (∀ ing ∈ sc.ingredients, 0 ≤ x ing.key) →
      0 < pyround (ul * (MICRO_SCALE : ℚ)) →
      nutrientExprVal sc.ingredients key x ≤ pyround (ul * (MICRO_SCALE : ℚ)) ∧
      round2Q (microTotalRaw sc.ingredients key x) ≤
        ul + (1 + ((totalGramsVal sc.ingredients x : ℤ) : ℚ)) / 20000 + 1 / 200) ∧
    (pyround (ul * (MICRO_SCALE : ℚ)) ≤ 0 →
      ∀ (ings2 : List IngredientInput) (mealCal2 calTol2 : ℤ),
        ulOkB { ingredients := ings2, mealCal := mealCal2, calTol := calTol2,
                microUls := [(key, ul)] } x = true) := by
  constructor
  · intro hmem hsat hx hpos
    have hentry : (if pyround (ul * ((MICRO_SCALE : ℤ) : ℚ)) ≤ 0 then true
        else decide (nutrientExprVal sc.ingredients key x ≤
          pyround (ul * ((MICRO_SCALE : ℤ) : ℚ)))) = true :=
      List.all_eq_true.mp hsat (key, ul) hmem
    rw [if_neg (not_le.mpr hpos)] at hentry
    have hul : nutrientExprVal sc.ingredients key x ≤
        pyround (ul * ((MICRO_SCALE : ℤ) : ℚ)) := of_decide_eq_true hentry
    refine ⟨hul, ?_⟩
    have h1 := microTotalRaw_le sc.ingredients key x hx
    have h3 := pyround_le (ul * ((MICRO_SCALE : ℤ) : ℚ))
    have hcast : ((nutrientExprVal sc.ingredients key x : ℤ) : ℚ) ≤
        ((pyround (ul * ((MICRO_SCALE : ℤ) : ℚ)) : ℤ) : ℚ) := by exact_mod_cast hul
    have hms : ((MICRO_SCALE : ℤ) : ℚ) = 10000 := by norm_num [MICRO_SCALE]
    rw [hms] at h3 hcast
    have h4 : round2Q (microTotalRaw sc.ingredients key x) ≤
        microTotalRaw sc.ingredients key x + 1 / 200 := by
      unfold round2Q
      have := pyround_le (microTotalRaw sc.ingredients key x * 100)
      linarith
    linarith
  · intro hneg ings2 mealCal2 calTol2
    simp only [ulOkB, List.all_cons, List.all_nil, Bool.and_true]
    rw [if_pos hneg]

/-- C4 amended witness: in the trace scenario (ul = 0.001, scaled UL 10 > 0,
3000 g served) the cap is enforced and the rounded realized total 0.12 is
within the amended bound. -/
theorem ul_realized_total_bound_witness :
    nutrientExprVal scC4.ingredients "iron_mg" xC4 ≤
      pyround ((1/1000 : ℚ) * ((MICRO_SCALE : ℤ) : ℚ)) ∧
    round2Q (microTotalRaw scC4.ingredients "iron_mg" xC4) ≤
      1/1000 + (1 + ((totalGramsVal scC4.ingredients xC4 : ℤ) : ℚ)) / 20000 + 1 / 200 :=
  (ul_realized_total_bound scC4 "iron_mg" (1/1000) xC4).1
    (List.mem_singleton.mpr rfl) ulOk_scC4 (by decide)
    (by rw [pyround_ulC4]; norm_num)

/-- C5 counterexample.  Duplicate priority entries are NOT ignored: the
composer loop (solver.py:489-513) appends a tier's terms once per
occurrence.  For `["micros", "total_weight", "micros"]` (one micro target,
total max 4250) the assembled objective gives the worst-shortfall,
shortfall-sum and total-grams expressions combined weights
`(4292925202, 42929252, 10101)`, while the deduplicated list
`["micros", "total_weight"]` gives `(425101, 4251, 1)` — not equal, and not
even proportional, so the built objectives differ. -/
theorem duplicate_priorities_change_objective :
    inpDup.priorities ≠ inpDedup.priorities ∧
    totalWeightOf (buildTerms inpDup) TermId.worstPct = 4292925202 ∧
    totalWeightOf (buildTerms inpDup) TermId.microSum = 42929252 ∧
    totalWeightOf (buildTerms inpDup) TermId.totalGrams = 10101 ∧
    totalWeightOf (buildTerms inpDedup) TermId.worstPct = 425101 ∧
    totalWeightOf (buildTerms inpDedup) TermId.microSum = 4251 ∧
    totalWeightOf (buildTerms inpDedup) TermId.totalGrams = 1 ∧
    (4292925202 : Nat) * 1 ≠ 425101 * 10101 := by
  refine ⟨by decide, by decide, by decide, by decide, by decide, by decide,
    by decide, by decide⟩

/-- C5 amended.  Unknown priority entries are ignored (filtering them away
leaves the composer's terms unchanged), and an empty or all-unknown priority
list falls back to total-grams minimization, which is exactly what the
single-entry list `["total_weight"]` produces; duplicates, however, are kept
(see the counterexample). -/
theorem priorities_unknown_ignored_and_fallback (inp : ComposerInput) :
    buildTerms { inp with priorities := inp.priorities.filter isKnownPriority } =
      buildTerms inp ∧
    ((∀ p ∈ inp.priorities, isKnownPriority p = false) →
      buildTerms inp = [(TermId.totalGrams, inp.maxTotal)]) ∧
    buildTerms { inp with priorities := ["total_weight"] } =
      [(TermId.totalGrams, inp.maxTotal)] := by
  have hfun : ∀ P : List String,
      tierTerms { inp with priorities := P } = tierTerms inp := fun _ => rfl
  have hmap : ∀ l : List String,
      ((l.filter isKnownPriority).map (tierTerms inp)).flatten =
        (l.map (tierTerms inp)).flatten := by
    intro l
    induction l with
    | nil => rfl
    | cons a l ih =>
      by_cases ha : isKnownPriority a = true
      · simp [List.filter_cons, ha, ih]
      · have ha2 : isKnownPriority a = false := by
          revert ha
          cases isKnownPriority a <;> simp
        simp [List.filter_cons, ha2, tierTerms_unknown inp a ha2, ih]
  have h1 : buildTerms { inp with priorities := inp.priorities.filter isKnownPriority } =
      buildTerms inp := by
    simp only [buildTerms]
    rw [hfun (inp.priorities.filter isKnownPriority), hmap inp.priorities]
  refine ⟨h1, ?_, ?_⟩
  · intro hall
    have hfil : inp.priorities.filter isKnownPriority = [] := by
      apply List.filter_eq_nil_iff.mpr
      intro a ha
      rw [hall a ha]
      simp
    rw [← h1, hfil]
    rfl
  · rfl

/-- C5 amended witness: a list with only the unknown entry `protein_floor`
falls back to total-grams minimization. -/
theorem priorities_unknown_ignored_witness :
    buildTerms inpW5 = [(TermId.totalGrams, 4250)] :=
  (priorities_unknown_ignored_and_fallback inpW5).2.1 (by decide)

/-- C6.  The solver driver returns the deterministic infeasible Solution on
an empty ingredient list (solver.py:134-144), and every returned Solution
whose status is `infeasible` has an empty per-ingredient list and zero
realized macro totals (solver.py:544-554; the extraction path always stamps
status `optimal` or `feasible`, solver.py:596). -/
theorem infeasible_solution_shape (sc : Scenario)
    (found : Option ((ℤ → ℤ) × Bool)) (sol : Solution)
    (h : modelReturns sc found = sol) :
    (sc.ingredients = [] → sol = emptyInfeasible) ∧
    emptyInfeasible.status = "infeasible" ∧
    (sol.status = "infeasible" →
      sol.ingredients = [] ∧ sol.meal_calories_kcal = 0 ∧
      sol.meal_protein_g = 0 ∧ sol.meal_fat_g = 0 ∧
      sol.meal_carbs_g = 0 ∧ sol.meal_fiber_g = 0) := by
  subst h
  by_cases hE : sc.ingredients.isEmpty = true
  · refine ⟨?_, rfl, ?_⟩
    · intro _
      simp [modelReturns, hE]
    · intro _
      simp [modelReturns, hE, emptyInfeasible]
  · refine ⟨?_, rfl, ?_⟩
    · intro h0
      exact absurd (by simp [h0] : sc.ingredients.isEmpty = true) hE
    · intro hS
      rcases found with _ | ⟨x, opt⟩
      · simp [modelReturns, hE, emptyInfeasible]
      · exfalso
        simp only [modelReturns, hE, if_false, Bool.false_eq_true] at hS
        cases opt <;> simp [extractSolution] at hS


/-- C6 witness: the empty scenario returns the deterministic infeasible
Solution. -/
theorem infeasible_solution_shape_witness :
    modelReturns scEmpty none = emptyInfeasible :=
  (infeasible_solution_shape scEmpty none (modelReturns scEmpty none) rfl).1 rfl

/-- C9.  When `macro_ratio` is absent from the priority list, no objective
term carries the combined macro/loose minimax variable (solver.py:506-508),
so a soft macro constraint's deviation variables have weight zero in the
assembled objective; moreover the auxiliary constraints of a soft macro
constraint (solver.py:208-247) are satisfiable at every value of the
nutrient expression within its range, so they never restrict the gram
variables — the soft constraint has no influence on which solution is
chosen. -/
theorem soft_dev_zero_weight_without_ratio_tier (inp : ComposerInput)
    (ingredients : List IngredientInput) (nutr mode : String)
    (grams exprVal : ℤ)
    (hp : "macro_ratio" ∉ inp.priorities)
    (hmode : mode = "gte" ∨ mode = "lte" ∨ mode = "eq")
    (hg : 0 ≤ grams) (he0 : 0 ≤ exprVal)
    (heM : exprVal ≤ maxPossibleOf ingredients nutr) :
    (∀ t ∈ buildTerms inp, t.1 ≠ TermId.combinedDev) ∧
    (∃ dev pct, softHolds ingredients nutr mode grams exprVal dev pct) := by
  constructor
  · intro t ht hc
    simp only [buildTerms] at ht
    split at ht
    · simp only [List.mem_singleton] at ht
      rw [ht] at hc
      simp at hc
    · rcases List.mem_flatten.mp ht with ⟨l, hl, htl⟩
      rcases List.mem_map.mp hl with ⟨p, hpp, rfl⟩
      exact hp ((mem_tierTerms_combined inp p t htl hc) ▸ hpp)
  · rcases hmode with rfl | rfl | rfl
    · refine ⟨max (grams * SCALE - exprVal) 0, PCT_SCALE, ?_⟩
      unfold softHolds softNormDenomCode softNormDenomClaim softDevBound SCALE PCT_SCALE
      norm_num
      simp only [max_def]
      split_ifs <;> omega
    · have hd : softNormDenomCode ingredients nutr "lte" grams =
          max (softDevBound ingredients nutr grams) 1 := by
        unfold softNormDenomCode softNormDenomClaim
        rw [if_neg (show ¬ ("lte" : String) = "gte" by decide)]
      refine ⟨max (exprVal - grams * SCALE) 0, PCT_SCALE, ?_⟩
      unfold softHolds
      refine ⟨le_max_right _ _, ?_, ?_, ?_, le_refl _, ?_⟩
      · unfold softDevBound SCALE
        simp only [max_def]
        split_ifs <;> omega
      · rw [if_neg (show ¬ ("lte" : String) = "gte" by decide),
          if_pos (show ("lte" : String) = "lte" from rfl)]
        exact le_max_left _ _
      · norm_num [PCT_SCALE]
      · rw [hd]
        unfold softDevBound SCALE PCT_SCALE
        simp only [max_def]
        split_ifs <;> omega
    · have hd : softNormDenomCode ingredients nutr "eq" grams =
          max (softDevBound ingredients nutr grams) 1 := by
        unfold softNormDenomCode softNormDenomClaim
        rw [if_neg (show ¬ ("eq" : String) = "gte" by decide)]
      refine ⟨|exprVal - grams * SCALE|, PCT_SCALE, ?_⟩
      unfold softHolds
      refine ⟨abs_nonneg _, ?_, ?_, ?_, le_refl _, ?_⟩
      · unfold softDevBound SCALE
        rcases le_total exprVal (grams * 100) with h | h
        · rw [abs_of_nonpos (by omega)]
          simp only [max_def]
          split_ifs <;> omega
        · rw [abs_of_nonneg (by omega)]
          simp only [max_def]
          split_ifs <;> omega
      · rw [if_neg (show ¬ ("eq" : String) = "gte" by decide),
          if_neg (show ¬ ("eq" : String) = "lte" by decide)]
      · norm_num [PCT_SCALE]
      · rw [hd]
        unfold softDevBound SCALE PCT_SCALE
        rcases le_total exprVal (grams * 100) with h | h
        · rw [abs_of_nonpos (by omega)]
          simp only [max_def]
          split_ifs <;> omega
        · rw [abs_of_nonneg (by omega)]
          simp only [max_def]
          split_ifs <;> omega

/-- The maximum possible scaled protein over the single chicken-thigh
ingredient. -/
theorem maxPossible_ingC7 : maxPossibleOf [ingC7] "protein" = 20000 := by
  have h20 : scaled_coeff (20 : ℚ) = 20 := by
    unfold scaled_coeff SCALE pyround
    norm_num
  have hd : macroDensity foodC7 "protein" = 20 := by
    unfold macroDensity
    rw [if_neg (show ¬ ("protein" : String) = "carbs" by decide),
      if_pos (show ("protein" : String) = "protein" from rfl)]
    rfl
  simp only [maxPossibleOf, ingC7, List.map_cons, List.map_nil, List.sum_cons,
    List.sum_nil, hd, h20]
  norm_num

/-- C9 witness: with priorities `["total_weight"]` and a live loose witness,
the only objective term is total grams — not the combined minimax — and the
soft gte protein constraint at 130 g is satisfiable at expression value 0. -/
theorem soft_dev_zero_weight_witness :
    ((TermId.totalGrams, (4250 : Nat)) : TermId × Nat).1 ≠ TermId.combinedDev :=
  (soft_dev_zero_weight_without_ratio_tier inpW9 [ingC7] "protein" "gte" 130 0
    (by decide) (Or.inl rfl) (by decide) (by decide)
    (by rw [maxPossible_ingC7]; norm_num)).1
    (TermId.totalGrams, 4250) (by decide)

end DailyChow
